import Mathlib

/-!
Shallow embedding of the slack-quake-alert pipeline.

Source files embedded:
- src/utils/intensity.ts   (intensity classifier)
- src/utils/formatter.ts   (message formatter, Japanese-locale variant, the one
  the claims cite by line number)
- src/services/p2pquake.ts (the unnamed stream-client file: per-category
  dispatch with the per-event try/catch)
- src/index.ts             (orchestrator: filter, format, send per category)

Modelling conventions:
- JS numbers that the code branches on are integers here (`Int`); seismic
  intensity ordinals are the integers -1, 0, 10, 20, 30, 40, 45, 50, 55, 60,
  70, 99. Magnitudes are carried as integers since the code only branches on
  presence and sign; `toFixed(1)` is modelled accordingly and no claim
  inspects the digits.
- JS truthiness on optional values is modelled explicitly (`jsTruthyStr`,
  `jsTruthyInt`, `jsOrZero`): `undefined`, `0` and the empty string are falsy.
- `new Date`-based rendering (`formatDateTime`, `formatTime`) depends on the
  runtime timezone, so those two helpers are carried as opaque function
  parameters in the render context `Ctx`; every theorem holds for all of them.
- Exceptions are modelled with `Except String`; the per-event try/catch of the
  stream client is the `match` in `processFrames`.
-/

/-- Seismic intensity ordinal (the p2pquake-client `SeismicIntensity` union
type), modelled as an integer. -/
abbrev SeismicIntensity := Int

/-- The twelve values of the `SeismicIntensity` union type: sentinel -1
(unknown), the nine reportable steps 0..70, and sentinel 99 (abnormal). -/
def seismicIntensityValues : List Int :=
  [-1, 0, 10, 20, 30, 40, 45, 50, 55, 60, 70, 99]

/-- Mapping from SeismicIntensity values to display strings
(`INTENSITY_MAP` in src/utils/intensity.ts). -/
def INTENSITY_MAP : List (Int × String) :=
  [(-1, "不明"), (0, "震度0"), (10, "震度1"), (20, "震度2"), (30, "震度3"),
   (40, "震度4"), (45, "震度5弱"), (50, "震度5強"), (55, "震度6弱"),
   (60, "震度6強"), (70, "震度7"), (99, "異常")]

/-- Mapping from string to SeismicIntensity for environment variable parsing
(`STRING_TO_INTENSITY` in src/utils/intensity.ts), in source order. -/
def STRING_TO_INTENSITY : List (String × Int) :=
  [("1", 10), ("2", 20), ("3", 30), ("4", 40),
   ("5-", 45), ("5弱", 45), ("5+", 50), ("5強", 50),
   ("6-", 55), ("6弱", 55), ("6+", 60), ("6強", 60), ("7", 70)]

/-- Color record for Slack Block Kit based on intensity
(`INTENSITY_COLORS` in src/utils/intensity.ts). -/
structure IntensityColors where
  low : String
  moderate : String
  high : String
  severe : String
deriving DecidableEq

/-- The concrete color values of `INTENSITY_COLORS`. -/
def INTENSITY_COLORS : IntensityColors :=
  { low := "#3AA3E3", moderate := "#F2C744", high := "#F18D00", severe := "#E2231A" }

/-- `intensityToString` from src/utils/intensity.ts:
`INTENSITY_MAP[intensity] || '不明'`. No mapped label is the empty string, so
the JS `||` fallback coincides with an `Option.getD` on the lookup. -/
def intensityToString (intensity : Int) : String :=
  (INTENSITY_MAP.lookup intensity).getD ("不明")

/-- `parseIntensityString` from src/utils/intensity.ts: looks the token up in
`STRING_TO_INTENSITY`; if undefined, throws (modelled by `Except.error`) with
the exact source message naming the allowed set. -/
def parseIntensityString (str : String) : Except String Int :=
  match STRING_TO_INTENSITY.lookup str with
  | some intensity => Except.ok intensity
  | none =>
      Except.error ("Invalid intensity string: " ++ str ++
        ". Valid values: 1, 2, 3, 4, 5-, 5+, 6-, 6+, 7")

/-- `shouldNotify` from src/utils/intensity.ts: unknown (negative) or abnormal
(99) intensities never notify; otherwise compare with the threshold. -/
def shouldNotify (intensity threshold : Int) : Bool :=
  if intensity < 0 ∨ intensity = 99 then false
  else intensity ≥ threshold

/-- `getIntensityColor` from src/utils/intensity.ts: four-bucket severity
banding by plain numeric comparison. -/
def getIntensityColor (intensity : Int) : String :=
  if intensity ≤ 30 then INTENSITY_COLORS.low
  else if intensity = 40 then INTENSITY_COLORS.moderate
  else if intensity ≥ 45 ∧ intensity ≤ 50 then INTENSITY_COLORS.high
  else INTENSITY_COLORS.severe

/-- JS truthiness of an optional string: `undefined` and the empty string are
falsy. -/
def jsTruthyStr : Option String → Bool
  | none => false
  | some s => !(s == "")

/-- JS truthiness of an optional number: `undefined` and `0` are falsy
(note that `-1` is truthy). -/
def jsTruthyInt : Option Int → Bool
  | none => false
  | some v => !(v == 0)

/-- JS `x || 0` on an optional number: `undefined` and `0` give `0`, any other
value (including negatives) passes through. -/
def jsOrZero : Option Int → Int
  | none => 0
  | some v => if v == 0 then 0 else v

/-- Render context: `config.githubImageBaseUrl` from src/config/env.ts plus
the two `new Date`-based helpers of src/utils/formatter.ts, which depend on
the runtime timezone and are therefore carried as opaque parameters. -/
structure Ctx where
  githubImageBaseUrl : String
  formatDateTime : String → String
  formatTime : String → String

/-- `getImageUrl` from src/utils/formatter.ts: strips one trailing slash from
the base URL and appends the filename. -/
def getImageUrl (ctx : Ctx) (filename : String) : String :=
  let baseUrl :=
    if ctx.githubImageBaseUrl.endsWith ("/") then ctx.githubImageBaseUrl.dropRight 1
    else ctx.githubImageBaseUrl
  baseUrl ++ "/" ++ filename

/-- One Slack Block Kit block, restricted to the shapes the formatter emits:
a section with mrkdwn text and an optional accessory image URL, a section with
a list of mrkdwn fields, a divider, and a context block. -/
inductive Block where
  | sectionText (text : String) (accessory : Option String)
  | sectionFields (fields : List String)
  | divider
  | context (text : String)
deriving DecidableEq

/-- Hypocenter of a quake event: name, magnitude and depth are each
independently optional. -/
structure Hypocenter where
  name : Option String
  magnitude : Option Int
  depth : Option Int
deriving DecidableEq

/-- Earthquake part of a JMAQuake frame. -/
structure Earthquake where
  time : String
  hypocenter : Option Hypocenter
  maxScale : Int
  domesticTsunami : Option String
deriving DecidableEq

/-- One observation point of a quake event. -/
structure ObservationPoint where
  addr : String
  scale : Int
  isArea : Bool
deriving DecidableEq

/-- JMA earthquake information frame (code 551). -/
structure JMAQuake where
  time : String
  earthquake : Earthquake
  points : Option (List ObservationPoint)
deriving DecidableEq

/-- One tsunami forecast area. -/
structure TsunamiArea where
  name : String
  grade : String
  immediate : Bool
deriving DecidableEq

/-- JMA tsunami information frame (code 552). -/
structure JMATsunami where
  time : String
  cancelled : Bool
  areas : Option (List TsunamiArea)
deriving DecidableEq

/-- One predicted-impact area of an EEW frame. -/
structure EEWArea where
  name : String
  scaleFrom : Option Int
  scaleTo : Option Int
  arrivalTime : Option String
deriving DecidableEq

/-- Hypocenter of the origin earthquake of an EEW frame. -/
structure EEWHypocenter where
  name : Option String
  magnitude : Option Int
  depth : Option Int
deriving DecidableEq

/-- Origin earthquake of an EEW frame. -/
structure EEWEarthquake where
  originTime : Option String
  hypocenter : Option EEWHypocenter
deriving DecidableEq

/-- Issue information of an EEW frame. -/
structure EEWIssue where
  serial : String
deriving DecidableEq

/-- Early-warning (EEW) frame (code 556). -/
structure EEW where
  time : String
  cancelled : Bool
  test : Bool
  issue : EEWIssue
  earthquake : Option EEWEarthquake
  areas : Option (List EEWArea)
deriving DecidableEq

/-- Number.prototype.toFixed(1) on the integer magnitudes of this model. -/
def toFixed1 (m : Int) : String := toString m ++ ".0"

/-- `getTsunamiText` from src/utils/formatter.ts. -/
def getTsunamiText (tsunamiType : String) : String :=
  ([("None", "なし"), ("Unknown", "不明"), ("Checking", "調査中"),
    ("NonEffective", "若干の海面変動（被害の心配なし）"),
    ("Watch", "津波注意報"), ("Warning", "津波警報")].lookup tsunamiType).getD tsunamiType

/-- `getTsunamiGradeText` from src/utils/formatter.ts. -/
def getTsunamiGradeText (grade : String) : String :=
  ([("MajorWarning", "大津波警報"), ("Warning", "津波警報"),
    ("Watch", "津波注意報"), ("Unknown", "不明")].lookup grade).getD grade

/-- The `grouped` map of `formatObservationPoints`: a JS `Map` keyed by
intensity, holding the addresses in input order; keys appear in first-insertion
order. Modelled as an association list built by the same left fold, where
`Map.set` on a present key replaces the value in place and on an absent key
appends a new entry. -/
def groupStep (grouped : List (Int × List String)) (point : ObservationPoint) :
    List (Int × List String) :=
  match grouped.lookup point.scale with
  | some locations =>
      grouped.map (fun kv => if kv.1 == point.scale then (kv.1, locations ++ [point.addr]) else kv)
  | none => grouped ++ [(point.scale, [point.addr])]

def groupByScale (points : List ObservationPoint) : List (Int × List String) :=
  points.foldl groupStep []

/-- The `sortedIntensities` of `formatObservationPoints`: the map keys sorted
by the comparator `(a, b) => b - a`, i.e. descending. The keys are distinct, so
any comparator-correct sort yields this list. -/
def sortedIntensities (points : List ObservationPoint) : List Int :=
  List.insertionSort (fun a b => a ≥ b) ((groupByScale points).map Prod.fst)

/-- One line of `formatObservationPoints` for one intensity group: up to
`maxDisplay = 10` locations joined by `、`, truncated with a `他N箇所`
remainder marker beyond the cap. -/
def obsLine (points : List ObservationPoint) (intensity : Int) : String :=
  let locations := ((groupByScale points).lookup intensity).getD []
  let intensityStr := intensityToString intensity
  if locations.length ≤ 10 then
    "*" ++ intensityStr ++ "*: " ++ String.intercalate ("、") locations
  else
    "*" ++ intensityStr ++ "*: " ++ String.intercalate ("、") (locations.take 10) ++
      " 他" ++ toString (locations.length - 10) ++ "箇所"

/-- `formatObservationPoints` from src/utils/formatter.ts: one line per
intensity group, sorted descending, joined by newlines. -/
def formatObservationPoints (points : List ObservationPoint) : String :=
  String.intercalate ("\n") ((sortedIntensities points).map (obsLine points))

/-- The `earthquakeInfo` field list of `formatQuakeMessage`, in push order:
occurrence time always; epicenter when the name is truthy; magnitude and depth
whenever defined (rendered as 不明 when negative); tsunami when truthy. -/
def quakeEarthquakeInfo (ctx : Ctx) (quake : JMAQuake) : List String :=
  let info := ["*発生時刻*\n" ++ ctx.formatDateTime quake.earthquake.time]
  let info :=
    if jsTruthyStr (quake.earthquake.hypocenter.bind Hypocenter.name) then
      info ++ ["*震源地*\n" ++ (quake.earthquake.hypocenter.bind Hypocenter.name).getD ("")]
    else info
  let info :=
    match quake.earthquake.hypocenter.bind Hypocenter.magnitude with
    | some magnitude =>
        info ++ ["*マグニチュード*\nM" ++ (if magnitude ≥ 0 then toFixed1 magnitude else "不明")]
    | none => info
  let info :=
    match quake.earthquake.hypocenter.bind Hypocenter.depth with
    | some depth =>
        info ++ ["*深さ*\n" ++ (if depth ≥ 0 then "約" ++ toString depth ++ "km" else "不明")]
    | none => info
  if jsTruthyStr quake.earthquake.domesticTsunami then
    info ++ ["*津波*\n" ++ getTsunamiText (quake.earthquake.domesticTsunami.getD (""))]
  else info

/-- The blocks of `formatQuakeMessage` before the final `splice`: header,
alert line, divider, key-facts fields, the optional observation-point detail,
then divider and footer context. -/
def quakeBaseBlocks (ctx : Ctx) (quake : JMAQuake) : List Block :=
  [Block.sectionText ("*地震情報*") (some (getImageUrl ctx ("rotating_light.png"))),
   Block.sectionText ("<!here> 地震が発生しました") none,
   Block.divider,
   Block.sectionFields (quakeEarthquakeInfo ctx quake)] ++
  (match quake.points with
   | some points =>
       if 0 < points.length then
         [Block.divider,
          Block.sectionText ("*各地の震度*\n" ++ formatObservationPoints points) none]
       else []
   | none => []) ++
  [Block.divider,
   Block.context ("情報発表時刻: " ++ ctx.formatDateTime quake.time ++ " | 提供: P2P地震情報")]

/-- `formatQuakeMessage` from src/utils/formatter.ts: the base blocks with the
maximum-intensity section spliced in at index 3 (between the divider and the
key-facts fields). -/
def formatQuakeMessage (ctx : Ctx) (quake : JMAQuake) : List Block :=
  List.insertIdx 3
    (Block.sectionText ("*最大震度*\n" ++ intensityToString quake.earthquake.maxScale) none)
    (quakeBaseBlocks ctx quake)

/-- One line of the tsunami forecast-area section, as built inside
`formatTsunamiMessage`. -/
def tsunamiAreaLine (area : TsunamiArea) : String :=
  "*" ++ area.name ++ "*: " ++ getTsunamiGradeText area.grade ++
    (if area.immediate then " ⚠️ *直ちに避難*" else "")

/-- The cancellation notice block of `formatTsunamiMessage`. -/
def tsunamiCancelNotice : Block :=
  Block.sectionText ("*この津波情報は解除されました*") none

/-- The forecast-area section of `formatTsunamiMessage`: present when the area
list is truthy and non-empty, one line per area, no cap. -/
def tsunamiAreaBlocks (tsunami : JMATsunami) : List Block :=
  match tsunami.areas with
  | some areas =>
      if 0 < areas.length then
        [Block.sectionText ("*津波予報区*\n" ++ String.intercalate ("\n") (areas.map tsunamiAreaLine)) none]
      else []
  | none => []

/-- `formatTsunamiMessage` from src/utils/formatter.ts. -/
def formatTsunamiMessage (ctx : Ctx) (tsunami : JMATsunami) : List Block :=
  [Block.sectionText ("*津波情報*") (some (getImageUrl ctx ("ocean.png"))),
   Block.sectionText ("<!here> 津波情報が発表されました") none,
   Block.divider] ++
  (if tsunami.cancelled then [tsunamiCancelNotice] else []) ++
  tsunamiAreaBlocks tsunami ++
  [Block.divider,
   Block.context ("情報発表時刻: " ++ ctx.formatDateTime tsunami.time ++ " | 提供: P2P地震情報")]

/-- The `maxPredictedIntensity` of `formatEEWMessage`:
`(eew.areas?.reduce((max, area) => Math.max(max, area.scaleTo || 0), 0) || 0)`. -/
def maxPredictedIntensity (eew : EEW) : Int :=
  jsOrZero (eew.areas.map (fun areas =>
    areas.foldl (fun mx area => max mx (jsOrZero area.scaleTo)) 0))

/-- The `isWarning` flag of `formatEEWMessage`: derived maximum predicted
intensity at least 50 (intensity 5-strong). -/
def eewIsWarning (eew : EEW) : Bool :=
  maxPredictedIntensity eew ≥ 50

/-- The `imageFilename` selection of `formatEEWMessage`. -/
def eewImageFilename (eew : EEW) : String :=
  if eew.cancelled then "no.png"
  else if eew.test then "mega.png"
  else if eewIsWarning eew then "warning.png"
  else "mega.png"

/-- The `title` selection of `formatEEWMessage`. -/
def eewTitle (eew : EEW) : String :=
  if eew.cancelled then "緊急地震速報（キャンセル）"
  else if eew.test then "緊急地震速報（訓練）"
  else "緊急地震速報"

/-- The `alertText` selection of `formatEEWMessage`. -/
def eewAlertText (eew : EEW) : String :=
  if eew.cancelled then "緊急地震速報がキャンセルされました"
  else if eew.test then "**これは訓練です**"
  else if eewIsWarning eew then "**強い揺れに警戒してください**"
  else "緊急地震速報を受信しました"

/-- The `eewInfo` field list of `formatEEWMessage`, in push order. Origin time
and epicenter name use truthiness; magnitude and depth additionally require a
non-negative value; the derived maximum predicted intensity is appended when
positive. -/
def eewInfo (ctx : Ctx) (eew : EEW) : List String :=
  let info : List String := []
  let info :=
    if jsTruthyStr (eew.earthquake.bind EEWEarthquake.originTime) then
      info ++ ["*発生時刻*\n" ++ ctx.formatDateTime ((eew.earthquake.bind EEWEarthquake.originTime).getD (""))]
    else info
  let hypocenter := eew.earthquake.bind EEWEarthquake.hypocenter
  let info :=
    if jsTruthyStr (hypocenter.bind EEWHypocenter.name) then
      info ++ ["*震源地*\n" ++ (hypocenter.bind EEWHypocenter.name).getD ("")]
    else info
  let info :=
    match hypocenter.bind EEWHypocenter.magnitude with
    | some magnitude =>
        if magnitude ≥ 0 then info ++ ["*マグニチュード*\nM" ++ toFixed1 magnitude] else info
    | none => info
  let info :=
    match hypocenter.bind EEWHypocenter.depth with
    | some depth =>
        if depth ≥ 0 then info ++ ["*深さ*\n約" ++ toString depth ++ "km"] else info
    | none => info
  if maxPredictedIntensity eew > 0 then
    info ++ ["*最大予測震度*\n" ++ intensityToString (maxPredictedIntensity eew)]
  else info

/-- The `intensityFrom` part of one EEW area line: truthiness of `scaleFrom`
(so 0 and undefined both fall back to the placeholder). -/
def eewIntensityFromText (area : EEWArea) : String :=
  if jsTruthyInt area.scaleFrom then intensityToString (area.scaleFrom.getD 0)
  else "予測震度不明"

/-- The `intensityTo` part of one EEW area line: a range suffix only when
`scaleTo` is truthy and differs from `scaleFrom`. -/
def eewIntensityToText (area : EEWArea) : String :=
  if jsTruthyInt area.scaleTo && !(area.scaleTo == area.scaleFrom) then
    "〜" ++ intensityToString (area.scaleTo.getD 0)
  else ""

/-- One line of the EEW predicted-impact area list. -/
def eewAreaLine (ctx : Ctx) (area : EEWArea) : String :=
  "*" ++ area.name ++ "*: " ++ eewIntensityFromText area ++ eewIntensityToText area ++
    (if jsTruthyStr area.arrivalTime then
       " (" ++ ctx.formatTime (area.arrivalTime.getD ("")) ++ ")"
     else "")

/-- The text of the EEW area-detail section: the first 15 areas, one line
each, plus a `他N地域` remainder when more than 15. -/
def eewAreasText (ctx : Ctx) (areas : List EEWArea) : String :=
  String.intercalate ("\n") ((areas.take 15).map (eewAreaLine ctx)) ++
    (if 15 < areas.length then " 他" ++ toString (areas.length - 15) ++ "地域" else "")

/-- The area-detail blocks of `formatEEWMessage`: present only when the area
list is truthy, non-empty, and the event is not cancelled. -/
def eewAreaBlocks (ctx : Ctx) (eew : EEW) : List Block :=
  match eew.areas with
  | some areas =>
      if 0 < areas.length ∧ ¬eew.cancelled then
        [Block.divider,
         Block.sectionText ("*予測震度*\n" ++ eewAreasText ctx areas) none]
      else []
  | none => []

/-- `formatEEWMessage` from src/utils/formatter.ts. -/
def formatEEWMessage (ctx : Ctx) (eew : EEW) : List Block :=
  [Block.sectionText ("*" ++ eewTitle eew ++ "*") (some (getImageUrl ctx (eewImageFilename eew))),
   Block.sectionText (eewAlertText eew) none,
   Block.divider] ++
  (if 0 < (eewInfo ctx eew).length then [Block.sectionFields (eewInfo ctx eew)] else []) ++
  eewAreaBlocks ctx eew ++
  [Block.divider,
   Block.context ((if eew.test then "訓練" else "第" ++ eew.issue.serial ++ "報") ++
     " | 情報発表時刻: " ++ ctx.formatDateTime eew.time)]

/-- One upstream frame, tagged by its category code (551 quake, 552 tsunami,
556 EEW), as dispatched by the stream client. -/
inductive Frame where
  | quake (q : JMAQuake)
  | tsunami (t : JMATsunami)
  | eew (e : EEW)

/-- The environment a registered handler closes over in `main`
(src/index.ts): the render context, the configured minimum intensity
threshold, and the outbound Slack send, which may fail (modelled by
`Except`). -/
structure Env where
  ctx : Ctx
  minIntensity : Int
  send : List Block → Except String Unit

/-- The body of the quake handler registered via `onQuake` in `main`: filter
by `shouldNotify` against the configured threshold, format, send. Returns the
documents sent; a fault anywhere in the body is an `Except.error`. -/
def handleQuake (env : Env) (quake : JMAQuake) : Except String (List (List Block)) :=
  if shouldNotify quake.earthquake.maxScale env.minIntensity then
    let blocks := formatQuakeMessage env.ctx quake
    match env.send blocks with
    | Except.ok _ => Except.ok [blocks]
    | Except.error e => Except.error e
  else Except.ok []

/-- The body of the tsunami handler registered via `onTsunami` in `main`:
format and send unconditionally, with no intensity filter. -/
def handleTsunami (env : Env) (tsunami : JMATsunami) : Except String (List (List Block)) :=
  let blocks := formatTsunamiMessage env.ctx tsunami
  match env.send blocks with
  | Except.ok _ => Except.ok [blocks]
  | Except.error e => Except.error e

/-- The body of the EEW handler registered via `onEEW` in `main`: format and
send unconditionally, with no intensity filter. -/
def handleEEW (env : Env) (eew : EEW) : Except String (List (List Block)) :=
  let blocks := formatEEWMessage env.ctx eew
  match env.send blocks with
  | Except.ok _ => Except.ok [blocks]
  | Except.error e => Except.error e

/-- Category dispatch of `setupEventHandlers` (stream client): each frame is
routed to the one registered handler for its category code. -/
def dispatchFrame (env : Env) : Frame → Except String (List (List Block))
  | Frame.quake q => handleQuake env q
  | Frame.tsunami t => handleTsunami env t
  | Frame.eew e => handleEEW env e

/-- The per-event try/catch boundary of `setupEventHandlers` (and of the
handler bodies in `main`), applied to a whole sequence of incoming frames: a
fault raised while handling one frame is caught and logged, and processing
continues with the next frame. Returns the documents sent and the error log. -/
def processFrames (env : Env) : List Frame → List (List Block) × List String
  | [] => ([], [])
  | frame :: rest =>
      match dispatchFrame env frame with
      | Except.ok docs =>
          let result := processFrames env rest
          (docs ++ result.1, result.2)
      | Except.error e =>
          let result := processFrames env rest
          (result.1, e :: result.2)

/-- The four mutually exclusive presentation variants of an EEW message, as
described by the spec; the classification below mirrors the nested
conditionals of `formatEEWMessage`. -/
inductive EEWVariant where
  | cancelled
  | test
  | warning
  | plain
deriving DecidableEq

/-- Classification of an EEW event into its presentation variant, with
cancelled taking priority over test and test over warning. -/
def eewVariant (eew : EEW) : EEWVariant :=
  if eew.cancelled then EEWVariant.cancelled
  else if eew.test then EEWVariant.test
  else if eewIsWarning eew then EEWVariant.warning
  else EEWVariant.plain

/-- Title text selected by each EEW variant. -/
def eewVariantTitle : EEWVariant → String
  | EEWVariant.cancelled => "緊急地震速報（キャンセル）"
  | EEWVariant.test => "緊急地震速報（訓練）"
  | EEWVariant.warning => "緊急地震速報"
  | EEWVariant.plain => "緊急地震速報"

/-- Accessory image token selected by each EEW variant. -/
def eewVariantImage : EEWVariant → String
  | EEWVariant.cancelled => "no.png"
  | EEWVariant.test => "mega.png"
  | EEWVariant.warning => "warning.png"
  | EEWVariant.plain => "mega.png"

/-- Alert sentence selected by each EEW variant. -/
def eewVariantAlert : EEWVariant → String
  | EEWVariant.cancelled => "緊急地震速報がキャンセルされました"
  | EEWVariant.test => "**これは訓練です**"
  | EEWVariant.warning => "**強い揺れに警戒してください**"
  | EEWVariant.plain => "緊急地震速報を受信しました"

/-- Maximum predicted intensity the way the spec words it: the maximum over
the areas of the upper-bound intensity, defaulting to 0 when absent. -/
def specMaxPredictedIntensity (eew : EEW) : Int :=
  (eew.areas.getD []).foldl (fun mx area => max mx (area.scaleTo.getD 0)) 0

/-- The syntactic kind of a block, used to state the fragment-order
invariant. -/
inductive BlockKind where
  | sectionText
  | sectionFields
  | divider
  | context
deriving DecidableEq

/-- Kind of one block. -/
def blockKind : Block → BlockKind
  | Block.sectionText _ _ => BlockKind.sectionText
  | Block.sectionFields _ => BlockKind.sectionFields
  | Block.divider => BlockKind.divider
  | Block.context _ => BlockKind.context

/-- Fully populated fragment skeleton of a quake message: header, alert line,
divider, maximum-intensity key fact, key-facts fields, divider, observation
detail, divider, footer. -/
def quakeSkeleton : List BlockKind :=
  [BlockKind.sectionText, BlockKind.sectionText, BlockKind.divider, BlockKind.sectionText,
   BlockKind.sectionFields, BlockKind.divider, BlockKind.sectionText, BlockKind.divider,
   BlockKind.context]

/-- Fully populated fragment skeleton of a tsunami message: header, alert
line, divider, cancellation notice, forecast-area detail, divider, footer. -/
def tsunamiSkeleton : List BlockKind :=
  [BlockKind.sectionText, BlockKind.sectionText, BlockKind.divider, BlockKind.sectionText,
   BlockKind.sectionText, BlockKind.divider, BlockKind.context]

/-- Fully populated fragment skeleton of an EEW message: header, alert line,
divider, key-facts fields, divider, area detail, divider, footer. -/
def eewSkeleton : List BlockKind :=
  [BlockKind.sectionText, BlockKind.sectionText, BlockKind.divider, BlockKind.sectionFields,
   BlockKind.divider, BlockKind.sectionText, BlockKind.divider, BlockKind.context]

/-- Concrete render context used by the witnesses. -/
def ctx0 : Ctx :=
  { githubImageBaseUrl := "https://example.test/images"
  , formatDateTime := fun s => s
  , formatTime := fun s => s }

/-- Concrete quake frame used by the witnesses: maximum observed intensity 40,
no optional fields. Its formatted message has 7 blocks. -/
def q0 : JMAQuake :=
  { time := "2024-01-01T10:00:00"
  , earthquake :=
      { time := "2024-01-01T09:59:00"
      , hypocenter := none
      , maxScale := 40
      , domesticTsunami := none }
  , points := none }

/-- Concrete tsunami frame used by the witnesses: not cancelled, no areas.
Its formatted message has 5 blocks. -/
def t0 : JMATsunami :=
  { time := "2024-01-01T10:05:00", cancelled := false, areas := none }

/-- Concrete cancelled tsunami frame with a single forecast area. -/
def t1 : JMATsunami :=
  { time := "2024-01-01T11:00:00"
  , cancelled := true
  , areas := some [{ name := "伊豆諸島", grade := "Warning", immediate := true }] }

/-- Concrete environment used by the C2 witness: threshold 30, and an
outbound send that faults on any 7-block document (hence on the formatted
quake message of `q0`) and succeeds otherwise. -/
def env0 : Env :=
  { ctx := ctx0
  , minIntensity := 30
  , send := fun blocks =>
      if blocks.length == 7 then Except.error ("send failure") else Except.ok () }

/-- Eleven observation points sharing intensity 40, used by the C5 witness. -/
def pts11 : List ObservationPoint :=
  [{ addr := "p01", scale := 40, isArea := false },
   { addr := "p02", scale := 40, isArea := false },
   { addr := "p03", scale := 40, isArea := false },
   { addr := "p04", scale := 40, isArea := false },
   { addr := "p05", scale := 40, isArea := false },
   { addr := "p06", scale := 40, isArea := false },
   { addr := "p07", scale := 40, isArea := false },
   { addr := "p08", scale := 40, isArea := false },
   { addr := "p09", scale := 40, isArea := false },
   { addr := "p10", scale := 40, isArea := false },
   { addr := "p11", scale := 40, isArea := false }]

/-- Concrete quake frame with observation points and all optional fields
populated, used by the C7 witness. -/
def q1 : JMAQuake :=
  { time := "2024-01-01T10:00:00"
  , earthquake :=
      { time := "2024-01-01T09:59:00"
      , hypocenter := some { name := some "石川県能登地方", magnitude := some 7, depth := some 10 }
      , maxScale := 70
      , domesticTsunami := some "Warning" }
  , points := some pts11 }

/-- Sixteen EEW areas, used by the C6 witness. -/
def areas16 : List EEWArea :=
  [{ name := "a01", scaleFrom := some 30, scaleTo := some 40, arrivalTime := none },
   { name := "a02", scaleFrom := some 30, scaleTo := some 40, arrivalTime := none },
   { name := "a03", scaleFrom := some 30, scaleTo := some 40, arrivalTime := none },
   { name := "a04", scaleFrom := some 30, scaleTo := some 40, arrivalTime := none },
   { name := "a05", scaleFrom := some 30, scaleTo := some 40, arrivalTime := none },
   { name := "a06", scaleFrom := some 30, scaleTo := some 40, arrivalTime := none },
   { name := "a07", scaleFrom := some 30, scaleTo := some 40, arrivalTime := none },
   { name := "a08", scaleFrom := some 30, scaleTo := some 40, arrivalTime := none },
   { name := "a09", scaleFrom := some 30, scaleTo := some 40, arrivalTime := none },
   { name := "a10", scaleFrom := some 30, scaleTo := some 40, arrivalTime := none },
   { name := "a11", scaleFrom := some 30, scaleTo := some 40, arrivalTime := none },
   { name := "a12", scaleFrom := some 30, scaleTo := some 40, arrivalTime := none },
   { name := "a13", scaleFrom := some 30, scaleTo := some 40, arrivalTime := none },
   { name := "a14", scaleFrom := some 30, scaleTo := some 40, arrivalTime := none },
   { name := "a15", scaleFrom := some 30, scaleTo := some 40, arrivalTime := none },
   { name := "a16", scaleFrom := some 30, scaleTo := some 40, arrivalTime := none }]

/-- Concrete non-cancelled EEW frame with 16 predicted-impact areas. -/
def eew16 : EEW :=
  { time := "2024-01-01T12:00:00"
  , cancelled := false
  , test := false
  , issue := { serial := "1" }
  , earthquake := none
  , areas := some areas16 }

/-- Concrete cancelled EEW frame with the same 16 areas. -/
def eew16c : EEW :=
  { time := "2024-01-01T12:00:00"
  , cancelled := true
  , test := false
  , issue := { serial := "2" }
  , earthquake := none
  , areas := some areas16 }

/-- Concrete EEW area with both predicted-intensity bounds equal to ordinal 0,
used by the C10 witness. -/
def areaZ : EEWArea :=
  { name := "沿岸部", scaleFrom := some 0, scaleTo := some 0, arrivalTime := none }

/-- The canonical configuration tokens as the spec enumerates them:
`1, 2, 3, 4, 5-, 5+, 6-, 6+, 7`. -/
def canonicalIntensityTokens : List String :=
  ["1", "2", "3", "4", "5-", "5+", "6-", "6+", "7"]

/-- The ordinals the canonical tokens parse to. -/
def canonicalOrdinals : List Int :=
  [10, 20, 30, 40, 45, 50, 55, 60, 70]

instance : DecidableEq (Except String Int) := fun a b =>
  match a, b with
  | Except.ok x, Except.ok y =>
      if h : x = y then isTrue (by rw [h]) else isFalse (by intro hc; cases hc; exact h rfl)
  | Except.error x, Except.error y =>
      if h : x = y then isTrue (by rw [h]) else isFalse (by intro hc; cases hc; exact h rfl)
  | Except.ok _, Except.error _ => isFalse (by intro hc; cases hc)
  | Except.error _, Except.ok _ => isFalse (by intro hc; cases hc)

/-- Helper: lookup at the key just consed on. -/
theorem lookup_cons_eq {α β : Type} [BEq α] [LawfulBEq α] (k : α) (v : β)
    (rest : List (α × β)) : ((k, v) :: rest).lookup k = some v := by
  simp [List.lookup]

/-- Helper: lookup skips a head entry with a different key. -/
theorem lookup_cons_ne {α β : Type} [BEq α] [LawfulBEq α] (k a : α) (v : β)
    (rest : List (α × β)) (h : ¬a = k) : ((k, v) :: rest).lookup a = rest.lookup a := by
  have hb : (a == k) = false := by simp [h]
  simp [List.lookup, hb]

/-- Lookup in an association list succeeds exactly on the listed keys. -/
theorem lookup_isSome_iff {α β : Type} [BEq α] [LawfulBEq α]
    (m : List (α × β)) (a : α) :
    (m.lookup a).isSome = true ↔ a ∈ m.map Prod.fst := by
  induction m with
  | nil => simp [List.lookup]
  | cons kv rest ih =>
      obtain ⟨k, v⟩ := kv
      by_cases h : a = k
      · subst h
        rw [lookup_cons_eq]
        simp
      · rw [lookup_cons_ne k a v rest h, ih]
        simp [h]

/-- Lookup in an association list fails exactly off the listed keys. -/
theorem lookup_eq_none_iff {α β : Type} [BEq α] [LawfulBEq α]
    (m : List (α × β)) (a : α) :
    m.lookup a = none ↔ a ∉ m.map Prod.fst := by
  rw [← lookup_isSome_iff m a]
  cases m.lookup a <;> simp

/-- Replacing the value stored at one key rewrites the lookup at that key and
leaves every other key unchanged. -/
theorem lookup_update (m : List (Int × List String)) (k : Int) (v : List String) (j : Int) :
    (m.map (fun kv => if kv.1 == k then (kv.1, v) else kv)).lookup j =
      (m.lookup j).map (fun w => if j = k then v else w) := by
  induction m with
  | nil => simp [List.lookup]
  | cons kv rest ih =>
      obtain ⟨key, w⟩ := kv
      simp only [List.map_cons]
      by_cases hkey : key = k
      · subst hkey
        simp only [beq_self_eq_true, if_true]
        by_cases hj : j = key
        · subst hj
          rw [lookup_cons_eq, lookup_cons_eq]
          simp
        · rw [lookup_cons_ne key j v _ hj, lookup_cons_ne key j w rest hj, ih]
      · have hb : (key == k) = false := by simp [hkey]
        simp only [hb, Bool.false_eq_true, if_false]
        by_cases hj : j = key
        · subst hj
          rw [lookup_cons_eq, lookup_cons_eq]
          simp [hkey]
        · rw [lookup_cons_ne key j w _ hj, lookup_cons_ne key j w rest hj, ih]

/-- Appending a fresh entry at the end of an association list is invisible to
lookups of present keys and serves lookups of the fresh key. -/
theorem lookup_append_single (m : List (Int × List String)) (k : Int) (v : List String) (j : Int) :
    (m ++ [(k, v)]).lookup j =
      match m.lookup j with
      | some w => some w
      | none => if j = k then some v else none := by
  induction m with
  | nil =>
      by_cases hj : j = k
      · subst hj
        simp [List.lookup]
      · have hb : (j == k) = false := by simp [hj]
        simp [List.lookup, hb, hj]
  | cons kv rest ih =>
      obtain ⟨key, w⟩ := kv
      by_cases hj : j = key
      · subst hj
        rw [List.cons_append, lookup_cons_eq, lookup_cons_eq]
      · rw [List.cons_append, lookup_cons_ne key j w _ hj, lookup_cons_ne key j w rest hj, ih]

/-- Replacing values preserves the key sequence of an association list. -/
theorem keys_update (m : List (Int × List String)) (k : Int) (v : List String) :
    (m.map (fun kv => if kv.1 == k then (kv.1, v) else kv)).map Prod.fst = m.map Prod.fst := by
  induction m with
  | nil => rfl
  | cons kv rest ih =>
      obtain ⟨key, w⟩ := kv
      by_cases hkey : key = k
      · subst hkey
        simp only [List.map_cons, beq_self_eq_true, if_true, ih]
      · have hb : (key == k) = false := by simp [hkey]
        simp only [List.map_cons, hb, Bool.false_eq_true, if_false, ih]

/-- The addresses of the points of one intensity group, in original input
order. -/
def scaleAddrs (points : List ObservationPoint) (s : Int) : List String :=
  (points.filter (fun p => p.scale == s)).map ObservationPoint.addr

/-- Folding `groupStep` over the points extends each bucket with exactly the
addresses of the matching points, in input order. -/
theorem foldl_groupStep_lookup (s : Int) (pts : List ObservationPoint) :
    ∀ m : List (Int × List String),
      (pts.foldl groupStep m).lookup s =
        match m.lookup s with
        | some locs => some (locs ++ scaleAddrs pts s)
        | none => if scaleAddrs pts s = [] then none else some (scaleAddrs pts s) := by
  induction pts with
  | nil =>
      intro m
      cases h : m.lookup s <;> simp [scaleAddrs, h]
  | cons p tl ih =>
      intro m
      rw [List.foldl_cons]
      rw [ih (groupStep m p)]
      by_cases hs : s = p.scale
      · subst hs
        have hfilter : scaleAddrs (p :: tl) p.scale = p.addr :: scaleAddrs tl p.scale := by
          simp [scaleAddrs]
        cases h1 : m.lookup p.scale with
        | some locations =>
            have hstep : (groupStep m p).lookup p.scale = some (locations ++ [p.addr]) := by
              rw [groupStep, h1, lookup_update, h1]
              simp
            rw [hstep]
            simp [hfilter]
        | none =>
            have hstep : (groupStep m p).lookup p.scale = some [p.addr] := by
              rw [groupStep, h1, lookup_append_single, h1]
              simp
            rw [hstep]
            simp [hfilter]
      · have hfilter : scaleAddrs (p :: tl) s = scaleAddrs tl s := by
          have : (p.scale == s) = false := by
            simp
            intro h
            exact absurd h.symm hs
          simp [scaleAddrs, this]
        have hstep : (groupStep m p).lookup s = m.lookup s := by
          cases h1 : m.lookup p.scale with
          | some locations =>
              rw [groupStep, h1, lookup_update]
              cases h2 : m.lookup s <;> simp [hs]
          | none =>
              rw [groupStep, h1, lookup_append_single]
              cases h2 : m.lookup s <;> simp [hs]
        rw [hstep, hfilter]

/-- The bucket the rendered group reads for an intensity is exactly the
addresses of the points observed at that intensity, in input order. -/
theorem groupByScale_lookup (pts : List ObservationPoint) (s : Int) :
    ((groupByScale pts).lookup s).getD [] = scaleAddrs pts s := by
  rw [groupByScale, foldl_groupStep_lookup s pts []]
  have : (([] : List (Int × List String)).lookup s) = none := by simp [List.lookup]
  rw [this]
  by_cases h : scaleAddrs pts s = [] <;> simp [h]

/-- A key is present in the grouped map exactly when some point was observed
at that intensity. -/
theorem groupByScale_mem_keys (pts : List ObservationPoint) (s : Int) :
    s ∈ (groupByScale pts).map Prod.fst ↔ ∃ p ∈ pts, p.scale = s := by
  rw [← lookup_isSome_iff]
  rw [groupByScale, foldl_groupStep_lookup s pts []]
  have : (([] : List (Int × List String)).lookup s) = none := by simp [List.lookup]
  rw [this]
  by_cases h : scaleAddrs pts s = []
  · simp only [h, if_true, Option.isSome_none]
    constructor
    · intro hfalse
      exact absurd hfalse (by simp)
    · rintro ⟨p, hp, hps⟩
      have : p.addr ∈ scaleAddrs pts s := by
        apply List.mem_map_of_mem
        rw [List.mem_filter]
        exact ⟨hp, by simp [hps]⟩
      rw [h] at this
      exact absurd this (List.not_mem_nil _)
  · simp only [h, if_false, Option.isSome_some, true_iff]
    have : scaleAddrs pts s ≠ [] := h
    obtain ⟨a, ha⟩ := List.exists_mem_of_ne_nil _ this
    rw [scaleAddrs] at ha
    obtain ⟨p, hp, _⟩ := List.mem_map.mp ha
    rw [List.mem_filter] at hp
    exact ⟨p, hp.1, by simpa using hp.2⟩

/-- The key sequence of the grouped map has no duplicates. -/
theorem groupByScale_keys_nodup (pts : List ObservationPoint) :
    ((groupByScale pts).map Prod.fst).Nodup := by
  rw [groupByScale]
  have main : ∀ (l : List ObservationPoint) (m : List (Int × List String)),
      (m.map Prod.fst).Nodup → ((l.foldl groupStep m).map Prod.fst).Nodup := by
    intro l
    induction l with
    | nil => intro m hm; simpa using hm
    | cons p tl ih =>
        intro m hm
        rw [List.foldl_cons]
        apply ih
        cases h1 : m.lookup p.scale with
        | some locations =>
            rw [groupStep, h1, keys_update]
            exact hm
        | none =>
            rw [groupStep, h1]
            have hnot : p.scale ∉ m.map Prod.fst := (lookup_eq_none_iff m p.scale).mp h1
            simp [List.nodup_append, hm, hnot]
  exact main pts [] (by simp)

/-- The rendered intensity groups are in strictly descending intensity
order. -/
theorem sortedIntensities_sorted (pts : List ObservationPoint) :
    List.Sorted (fun a b => a > b) (sortedIntensities pts) := by
  have h1 : List.Sorted (fun a b : Int => a ≥ b) (sortedIntensities pts) :=
    List.sorted_insertionSort (fun a b => a ≥ b) ((groupByScale pts).map Prod.fst)
  have h2 : (sortedIntensities pts).Nodup :=
    ((List.perm_insertionSort (fun a b : Int => a ≥ b) _).symm).nodup
      (groupByScale_keys_nodup pts)
  exact (List.Pairwise.and h1 h2).imp (fun hab => lt_of_le_of_ne hab.1 (Ne.symm hab.2))

/-- The rendered intensity groups are exactly the intensities observed at some
point. -/
theorem sortedIntensities_mem (pts : List ObservationPoint) (s : Int) :
    s ∈ sortedIntensities pts ↔ ∃ p ∈ pts, p.scale = s := by
  rw [sortedIntensities]
  rw [(List.perm_insertionSort (fun a b : Int => a ≥ b) ((groupByScale pts).map Prod.fst)).mem_iff]
  exact groupByScale_mem_keys pts s

/-- Characterization of `shouldNotify` over all integers: it notifies exactly
for non-sentinel intensities at or above the threshold. -/
theorem shouldNotify_eq_true_iff (i t : Int) :
    shouldNotify i t = true ↔ (0 ≤ i ∧ i ≠ 99 ∧ t ≤ i) := by
  rw [shouldNotify]
  split_ifs with h
  · simp only [Bool.false_eq_true, false_iff]
    intro hc
    omega
  · simp only [ge_iff_le, decide_eq_true_eq]
    omega

/-- C1: for every intensity ordinal and every threshold, `shouldNotify`
returns false on the unknown (-1) and abnormal (99) sentinels regardless of
the threshold; on every non-sentinel ordinal it returns true exactly when the
ordinal is at least the threshold, and it is monotonic in the ordinal over
non-sentinel ordinals. -/
theorem shouldNotify_spec :
    ∀ i ∈ seismicIntensityValues, ∀ t : Int,
      ((i = -1 ∨ i = 99) → shouldNotify i t = false)
      ∧ (i ≠ -1 → i ≠ 99 → (shouldNotify i t = true ↔ t ≤ i))
      ∧ (∀ j ∈ seismicIntensityValues, j ≠ -1 → j ≠ 99 → i ≤ j →
           shouldNotify i t = true → shouldNotify j t = true) := by
  intro i hi t
  have hmem := hi
  simp only [seismicIntensityValues, List.mem_cons, List.not_mem_nil, or_false] at hmem
  refine ⟨?_, ?_, ?_⟩
  · intro hcase
    cases hb : shouldNotify i t with
    | false => rfl
    | true =>
        rw [shouldNotify_eq_true_iff] at hb
        exfalso
        omega
  · intro h1 h99
    rw [shouldNotify_eq_true_iff]
    constructor
    · exact fun h => h.2.2
    · intro ht
      refine ⟨?_, h99, ht⟩
      omega
  · intro j hj hj1 hj99 hij hnot
    have hmemj := hj
    simp only [seismicIntensityValues, List.mem_cons, List.not_mem_nil, or_false] at hmemj
    rw [shouldNotify_eq_true_iff] at hnot ⊢
    omega

/-- C1 witness: sentinel -1 never notifies, sentinel 99 never notifies, and
ordinal 40 against threshold 30 notifies exactly because 30 ≤ 40. -/
theorem shouldNotify_spec_witness :
    shouldNotify (-1) 10 = false ∧ shouldNotify 99 10 = false
    ∧ (shouldNotify 40 30 = true ↔ (30 : Int) ≤ 40) :=
  ⟨(shouldNotify_spec (-1) (by decide) 10).1 (Or.inl rfl),
   (shouldNotify_spec 99 (by decide) 10).1 (Or.inr rfl),
   (shouldNotify_spec 40 (by decide) 30).2.1 (by decide) (by decide)⟩

/-- C9: the color banding does not exclude the sentinels: the unknown
sentinel -1 falls into the low bucket (the bucket of every ordinal at most
30) and the abnormal sentinel 99 falls into the severe bucket, while both
sentinels are excluded from notify-worthiness. -/
theorem getIntensityColor_sentinels :
    getIntensityColor (-1) = INTENSITY_COLORS.low
    ∧ (∀ i : Int, i ≤ 30 → getIntensityColor i = INTENSITY_COLORS.low)
    ∧ getIntensityColor 99 = INTENSITY_COLORS.severe
    ∧ (∀ t : Int, shouldNotify (-1) t = false ∧ shouldNotify 99 t = false) := by
  refine ⟨by rfl, ?_, by rfl, ?_⟩
  · intro i h
    rw [getIntensityColor, if_pos h]
  · intro t
    constructor <;> (rw [shouldNotify]; norm_num)

/-- C9 witness: ordinal 20 is at most 30 and gets the low color, like
sentinel -1; and sentinel -1 does not notify at threshold 55. -/
theorem getIntensityColor_sentinels_witness :
    (20 : Int) ≤ 30 ∧ getIntensityColor 20 = INTENSITY_COLORS.low
    ∧ shouldNotify (-1) 55 = false :=
  ⟨by decide, getIntensityColor_sentinels.2.1 20 (by decide),
   (getIntensityColor_sentinels.2.2.2 55).1⟩

/-- C3 counterexample: the claim speaks of a bijection-on-success over the
8 canonical tokens, but the canonical token set it enumerates
(`1, 2, 3, 4, 5-, 5+, 6-, 6+, 7`) has 9 elements, not 8. -/
theorem parseIntensityString_counterexample :
    canonicalIntensityTokens.length = 9 ∧ ¬(canonicalIntensityTokens.length = 8) := by
  decide

/-- C3 (amended to the nine canonical tokens): `parseIntensityString`
succeeds exactly on the canonical tokens and their localized equivalents
(the keys of `STRING_TO_INTENSITY`); restricted to the nine canonical tokens
it is injective and in bijection with the nine notification ordinals; every
other input fails with the error naming the allowed set. -/
theorem parseIntensityString_spec :
    (∀ s : String, (parseIntensityString s).isOk = true ↔ s ∈ STRING_TO_INTENSITY.map Prod.fst)
    ∧ (∀ s1 ∈ canonicalIntensityTokens, ∀ s2 ∈ canonicalIntensityTokens,
         parseIntensityString s1 = parseIntensityString s2 → s1 = s2)
    ∧ (∀ v ∈ canonicalOrdinals, ∃ s ∈ canonicalIntensityTokens, parseIntensityString s = Except.ok v)
    ∧ (∀ s ∈ canonicalIntensityTokens, ∃ v ∈ canonicalOrdinals, parseIntensityString s = Except.ok v)
    ∧ (∀ s : String, s ∉ STRING_TO_INTENSITY.map Prod.fst →
         parseIntensityString s =
           Except.error ("Invalid intensity string: " ++ s ++
             ". Valid values: 1, 2, 3, 4, 5-, 5+, 6-, 6+, 7")) := by
  refine ⟨?_, by decide, by decide, by decide, ?_⟩
  · intro s
    have hok : (parseIntensityString s).isOk = (STRING_TO_INTENSITY.lookup s).isSome := by
      rw [parseIntensityString]
      cases STRING_TO_INTENSITY.lookup s <;> rfl
    rw [hok, lookup_isSome_iff]
  · intro s hs
    have h : STRING_TO_INTENSITY.lookup s = none := (lookup_eq_none_iff _ s).mpr hs
    rw [parseIntensityString, h]

/-- C3 witness: the token `5-` parses successfully because it is a listed
key, and the unlisted token `8` fails with the error naming the allowed
set. -/
theorem parseIntensityString_spec_witness :
    ((parseIntensityString ("5-")).isOk = true ↔ "5-" ∈ STRING_TO_INTENSITY.map Prod.fst)
    ∧ parseIntensityString ("8") =
        Except.error ("Invalid intensity string: " ++ "8" ++
          ". Valid values: 1, 2, 3, 4, 5-, 5+, 6-, 6+, 7") :=
  ⟨parseIntensityString_spec.1 ("5-"),
   parseIntensityString_spec.2.2.2.2 ("8") (by decide)⟩

/-- JS `x || 0` coincides with `Option.getD 0` on integer options. -/
theorem jsOrZero_eq_getD (o : Option Int) : jsOrZero o = o.getD 0 := by
  cases o with
  | none => rfl
  | some v =>
      rw [jsOrZero]
      by_cases h : v = 0
      · subst h
        simp
      · have hb : (v == 0) = false := by simp [h]
        simp [hb]

/-- The derived maximum predicted intensity of `formatEEWMessage` equals the
maximum over the areas of the upper-bound intensity, defaulting to 0 when
absent. -/
theorem maxPredictedIntensity_eq_spec (eew : EEW) :
    maxPredictedIntensity eew = specMaxPredictedIntensity eew := by
  rw [maxPredictedIntensity, specMaxPredictedIntensity]
  cases eew.areas <;> simp [jsOrZero_eq_getD]

/-- C4: exactly one of the four variants (cancelled, test, warning, plain)
selects the title, the accessory image token and the alert sentence of an EEW
message; cancelled takes priority over test and test over warning; the
warning variant applies exactly when the derived maximum predicted intensity
(the maximum over areas of `scaleTo`, defaulting to 0 when absent) is at
least 50; and the selected title and image appear in the emitted header
block. -/
theorem formatEEWMessage_variant_spec :
    ∀ eew : EEW,
      (eewTitle eew = eewVariantTitle (eewVariant eew)
       ∧ eewImageFilename eew = eewVariantImage (eewVariant eew)
       ∧ eewAlertText eew = eewVariantAlert (eewVariant eew))
      ∧ (eewVariant eew = EEWVariant.cancelled ↔ eew.cancelled = true)
      ∧ (eewVariant eew = EEWVariant.test ↔ (eew.cancelled = false ∧ eew.test = true))
      ∧ (eewVariant eew = EEWVariant.warning ↔
           (eew.cancelled = false ∧ eew.test = false ∧ 50 ≤ maxPredictedIntensity eew))
      ∧ (eewVariant eew = EEWVariant.plain ↔
           (eew.cancelled = false ∧ eew.test = false ∧ maxPredictedIntensity eew < 50))
      ∧ maxPredictedIntensity eew = specMaxPredictedIntensity eew
      ∧ (∀ ctx, (formatEEWMessage ctx eew).head? =
           some (Block.sectionText ("*" ++ eewVariantTitle (eewVariant eew) ++ "*")
             (some (getImageUrl ctx (eewVariantImage (eewVariant eew)))))) := by
  intro eew
  have hW : eewIsWarning eew = true ↔ 50 ≤ maxPredictedIntensity eew := by
    rw [eewIsWarning]
    simp [ge_iff_le]
  have hWf : eewIsWarning eew = false ↔ maxPredictedIntensity eew < 50 := by
    rw [eewIsWarning]
    simp [ge_iff_le, decide_eq_false_iff_not, not_le]
  cases hc : eew.cancelled <;> cases ht : eew.test <;> cases hw : eewIsWarning eew <;>
    simp_all [eewVariant, eewTitle, eewImageFilename, eewAlertText, eewVariantTitle,
      eewVariantImage, eewVariantAlert, formatEEWMessage,
      maxPredictedIntensity_eq_spec eew]

/-- C5: for a quake event with observation points, the points are grouped by
exact intensity ordinal, the groups are rendered in strictly descending
ordinal order, within a group the locations keep their original input order,
a group of at most 10 locations is rendered without a remainder marker, and a
group of more than 10 locations renders exactly the first 10 followed by a
marker counting the rest. -/
theorem formatObservationPoints_spec :
    ∀ points : List ObservationPoint, points ≠ [] →
      List.Sorted (fun a b => a > b) (sortedIntensities points)
      ∧ (∀ s : Int, s ∈ sortedIntensities points ↔ ∃ p ∈ points, p.scale = s)
      ∧ (∀ s : Int, ((groupByScale points).lookup s).getD [] = scaleAddrs points s)
      ∧ formatObservationPoints points =
          String.intercalate ("\n") ((sortedIntensities points).map (obsLine points))
      ∧ (∀ s : Int,
           ((scaleAddrs points s).length ≤ 10 →
              obsLine points s = "*" ++ intensityToString s ++ "*: " ++
                String.intercalate ("、") (scaleAddrs points s))
           ∧ (10 < (scaleAddrs points s).length →
              obsLine points s = "*" ++ intensityToString s ++ "*: " ++
                String.intercalate ("、") ((scaleAddrs points s).take 10) ++
                " 他" ++ toString ((scaleAddrs points s).length - 10) ++ "箇所")) := by
  intro points hne
  refine ⟨sortedIntensities_sorted points, sortedIntensities_mem points,
    groupByScale_lookup points, rfl, ?_⟩
  intro s
  have hlocs : ((groupByScale points).lookup s).getD [] = scaleAddrs points s :=
    groupByScale_lookup points s
  constructor
  · intro hle
    simp only [obsLine, hlocs]
    rw [if_pos hle]
  · intro hgt
    simp only [obsLine, hlocs]
    rw [if_neg (by omega)]

/-- C5 witness: eleven points sharing intensity 40 render as the first ten
locations plus a remainder marker counting one more, while the empty group at
intensity 45 renders without any marker. -/
theorem formatObservationPoints_spec_witness :
    pts11 ≠ []
    ∧ obsLine pts11 40 = "*" ++ intensityToString 40 ++ "*: " ++
        String.intercalate ("、") ((scaleAddrs pts11 40).take 10) ++
        " 他" ++ toString ((scaleAddrs pts11 40).length - 10) ++ "箇所"
    ∧ obsLine pts11 45 = "*" ++ intensityToString 45 ++ "*: " ++
        String.intercalate ("、") (scaleAddrs pts11 45) :=
  ⟨by decide,
   ((formatObservationPoints_spec pts11 (by decide)).2.2.2.2 40).2 (by decide),
   ((formatObservationPoints_spec pts11 (by decide)).2.2.2.2 45).1 (by decide)⟩

/-- C6: for a non-cancelled EEW event with a non-empty area list the
area-detail block renders at most the first 15 areas, appending a remainder
count exactly when there are more than 15; for a cancelled EEW event the
area-detail block is omitted entirely regardless of the number of areas. -/
theorem eewAreaBlocks_spec :
    ∀ (ctx : Ctx) (eew : EEW) (areas : List EEWArea),
      eew.areas = some areas →
      (eew.cancelled = true → eewAreaBlocks ctx eew = [])
      ∧ (eew.cancelled = false → areas ≠ [] →
           eewAreaBlocks ctx eew =
             [Block.divider,
              Block.sectionText ("*予測震度*\n" ++
                String.intercalate ("\n") ((areas.take 15).map (eewAreaLine ctx)) ++
                (if 15 < areas.length then " 他" ++ toString (areas.length - 15) ++ "地域"
                 else "")) none]
           ∧ (areas.take 15).length ≤ 15
           ∧ (areas.length ≤ 15 →
                eewAreasText ctx areas =
                  String.intercalate ("\n") (areas.map (eewAreaLine ctx)))) := by
  intro ctx eew areas ha
  constructor
  · intro hc
    rw [eewAreaBlocks, ha]
    simp [hc]
  · intro hc hne
    refine ⟨?_, ?_, ?_⟩
    · have hcond : 0 < areas.length ∧ ¬eew.cancelled = true :=
        ⟨List.length_pos.mpr hne, by simp [hc]⟩
      rw [eewAreaBlocks, ha]
      dsimp only
      rw [if_pos hcond, eewAreasText, ← String.append_assoc]
    · rw [List.length_take]
      exact Nat.min_le_left _ _
    · intro hle
      rw [eewAreasText, List.take_of_length_le hle, if_neg (by omega)]
      simp

/-- C6 witness: with the same 16 areas, the cancelled EEW event renders no
area-detail block at all, while the non-cancelled one renders the first 15
areas plus a remainder counting the one area beyond the cap. -/
theorem eewAreaBlocks_spec_witness :
    eew16c.areas = some areas16 ∧ eewAreaBlocks ctx0 eew16c = []
    ∧ eew16.areas = some areas16
    ∧ eewAreaBlocks ctx0 eew16 =
        [Block.divider,
         Block.sectionText ("*予測震度*\n" ++
           String.intercalate ("\n") ((areas16.take 15).map (eewAreaLine ctx0)) ++
           (if 15 < areas16.length then " 他" ++ toString (areas16.length - 15) ++ "地域"
            else "")) none] :=
  ⟨rfl, (eewAreaBlocks_spec ctx0 eew16c areas16 rfl).1 rfl,
   rfl, ((eewAreaBlocks_spec ctx0 eew16 areas16 rfl).2 rfl (by decide)).1⟩

/-- C10: in the EEW area lines a predicted-intensity bound equal to ordinal 0
is treated like an absent bound because of truthiness: a `scaleFrom` of 0 or
absent renders the placeholder (never the scale-0 label), and a `scaleTo` of
0, absent, or equal to `scaleFrom` never produces a range suffix. -/
theorem eewAreaLine_zero_treated_as_absent :
    ∀ (ctx : Ctx) (area : EEWArea),
      ((area.scaleFrom = none ∨ area.scaleFrom = some 0) →
         eewIntensityFromText area = "予測震度不明")
      ∧ ((area.scaleTo = none ∨ area.scaleTo = some 0 ∨ area.scaleTo = area.scaleFrom) →
         eewIntensityToText area = "")
      ∧ (area.scaleFrom = some 0 → eewIntensityFromText area ≠ intensityToString 0)
      ∧ (area.scaleFrom = some 0 → area.scaleTo = some 0 → area.arrivalTime = none →
           eewAreaLine ctx area = "*" ++ area.name ++ "*: " ++ "予測震度不明") := by
  intro ctx area
  have hfrom : ∀ h : area.scaleFrom = none ∨ area.scaleFrom = some 0,
      eewIntensityFromText area = "予測震度不明" := by
    rintro (h | h) <;> rw [eewIntensityFromText] <;> simp [jsTruthyInt, h]
  have hto : ∀ h : area.scaleTo = none ∨ area.scaleTo = some 0 ∨ area.scaleTo = area.scaleFrom,
      eewIntensityToText area = "" := by
    rintro (h | h | h)
    · rw [eewIntensityToText]
      simp [jsTruthyInt, h]
    · rw [eewIntensityToText]
      simp [jsTruthyInt, h]
    · rw [eewIntensityToText, h]
      simp
  refine ⟨hfrom, hto, ?_, ?_⟩
  · intro h
    rw [hfrom (Or.inr h)]
    decide
  · intro hf ht harr
    rw [eewAreaLine, hfrom (Or.inr hf), hto (Or.inr (Or.inl ht)), harr]
    simp [jsTruthyStr]

/-- C10 witness: the concrete area with both bounds equal to ordinal 0
renders the placeholder, no range suffix, and the placeholder-only line. -/
theorem eewAreaLine_zero_witness :
    eewIntensityFromText areaZ = "予測震度不明"
    ∧ eewIntensityToText areaZ = ""
    ∧ eewAreaLine ctx0 areaZ = "*" ++ areaZ.name ++ "*: " ++ "予測震度不明" :=
  ⟨(eewAreaLine_zero_treated_as_absent ctx0 areaZ).1 (Or.inr rfl),
   (eewAreaLine_zero_treated_as_absent ctx0 areaZ).2.1 (Or.inr (Or.inl rfl)),
   (eewAreaLine_zero_treated_as_absent ctx0 areaZ).2.2.2 rfl rfl rfl⟩

/-- C2: a fault raised inside a registered per-category handler is caught at
the per-event boundary, logged, and does not propagate: the faulting frame
contributes no documents but the remaining frames are processed exactly as
before; in particular a fault while processing one quake event does not
prevent a subsequently dispatched tsunami event from being formatted and
sent. -/
theorem processFrames_fault_containment :
    (∀ (env : Env) (frame : Frame) (rest : List Frame) (err : String),
       dispatchFrame env frame = Except.error err →
       processFrames env (frame :: rest) =
         ((processFrames env rest).1, err :: (processFrames env rest).2))
    ∧ (∀ (env : Env) (q : JMAQuake) (t : JMATsunami) (err : String),
         dispatchFrame env (Frame.quake q) = Except.error err →
         env.send (formatTsunamiMessage env.ctx t) = Except.ok () →
         processFrames env [Frame.quake q, Frame.tsunami t] =
           ([formatTsunamiMessage env.ctx t], [err])) := by
  constructor
  · intro env frame rest err herr
    simp [processFrames, herr]
  · intro env q t err herr hok
    have h1 : dispatchFrame env (Frame.tsunami t) =
        Except.ok [formatTsunamiMessage env.ctx t] := by
      simp [dispatchFrame, handleTsunami, hok]
    simp [processFrames, herr, h1]

/-- C2 witness: in the concrete environment whose outbound send faults on the
7-block quake document and accepts the 5-block tsunami document, processing a
quake frame followed by a tsunami frame logs the quake fault and still sends
the tsunami document. -/
theorem processFrames_fault_containment_witness :
    dispatchFrame env0 (Frame.quake q0) = Except.error ("send failure")
    ∧ env0.send (formatTsunamiMessage env0.ctx t0) = Except.ok ()
    ∧ processFrames env0 [Frame.quake q0, Frame.tsunami t0] =
        ([formatTsunamiMessage env0.ctx t0], ["send failure"]) := by
  have h1 : dispatchFrame env0 (Frame.quake q0) = Except.error ("send failure") := by rfl
  have h2 : env0.send (formatTsunamiMessage env0.ctx t0) = Except.ok () := by rfl
  exact ⟨h1, h2,
    processFrames_fault_containment.2 env0 q0 t0 ("send failure") h1 h2⟩

/-- C8: a cancelled tsunami event still renders all standard fragments and
injects the cancellation notice directly after the header, alert line and
divider, before the forecast-area information (one line per area, uncapped);
and tsunami frames are dispatched to formatting and sending unconditionally:
the result never depends on the configured intensity threshold. -/
theorem formatTsunamiMessage_cancelled_spec :
    ∀ (ctx : Ctx) (t : JMATsunami),
      t.cancelled = true →
      formatTsunamiMessage ctx t =
          [Block.sectionText ("*津波情報*") (some (getImageUrl ctx ("ocean.png"))),
           Block.sectionText ("<!here> 津波情報が発表されました") none,
           Block.divider,
           tsunamiCancelNotice] ++
          tsunamiAreaBlocks t ++
          [Block.divider,
           Block.context ("情報発表時刻: " ++ ctx.formatDateTime t.time ++ " | 提供: P2P地震情報")]
      ∧ (∀ areas : List TsunamiArea, t.areas = some areas → areas ≠ [] →
           tsunamiAreaBlocks t =
             [Block.sectionText ("*津波予報区*\n" ++
                String.intercalate ("\n") (areas.map tsunamiAreaLine)) none])
      ∧ (∀ (c : Ctx) (m1 m2 : Int) (send : List Block → Except String Unit),
           dispatchFrame { ctx := c, minIntensity := m1, send := send } (Frame.tsunami t) =
             dispatchFrame { ctx := c, minIntensity := m2, send := send } (Frame.tsunami t))
      ∧ (∀ env : Env,
           dispatchFrame env (Frame.tsunami t) =
             match env.send (formatTsunamiMessage env.ctx t) with
             | Except.ok _ => Except.ok [formatTsunamiMessage env.ctx t]
             | Except.error e => Except.error e) := by
  intro ctx t hc
  refine ⟨?_, ?_, ?_, ?_⟩
  · rw [formatTsunamiMessage, if_pos hc]
    simp
  · intro areas ha hne
    rw [tsunamiAreaBlocks, ha]
    dsimp only
    rw [if_pos (List.length_pos.mpr hne)]
  · intro c m1 m2 send
    rfl
  · intro env
    rfl

/-- C8 witness: the concrete cancelled tsunami frame with one forecast area
renders the cancellation notice as its fourth block and a single area line. -/
theorem formatTsunamiMessage_cancelled_witness :
    t1.cancelled = true
    ∧ formatTsunamiMessage ctx0 t1 =
        [Block.sectionText ("*津波情報*") (some (getImageUrl ctx0 ("ocean.png"))),
         Block.sectionText ("<!here> 津波情報が発表されました") none,
         Block.divider,
         tsunamiCancelNotice] ++
        tsunamiAreaBlocks t1 ++
        [Block.divider,
         Block.context ("情報発表時刻: " ++ ctx0.formatDateTime t1.time ++ " | 提供: P2P地震情報")]
    ∧ tsunamiAreaBlocks t1 =
        [Block.sectionText ("*津波予報区*\n" ++
           String.intercalate ("\n")
             ([({ name := "伊豆諸島", grade := "Warning", immediate := true } : TsunamiArea)].map
               tsunamiAreaLine)) none] :=
  ⟨rfl,
   (formatTsunamiMessage_cancelled_spec ctx0 t1 rfl).1,
   (formatTsunamiMessage_cancelled_spec ctx0 t1 rfl).2.1
     [{ name := "伊豆諸島", grade := "Warning", immediate := true }] rfl (by decide)⟩

/-- Inserting at index 3 of a list with at least three known leading elements
places the new element fourth. -/
theorem insertIdx_three (x a b c : Block) (l : List Block) :
    List.insertIdx 3 x (a :: b :: c :: l) = a :: b :: c :: x :: l := rfl

/-- C7: for each of the three categories, every emitted block sequence is an
order-preserving selection (sublist) of the fixed fully-populated fragment
skeleton of that category — header, summary/alert line, divider, key facts,
divider, category-specific detail, divider, footer — whatever combination of
optional fields is populated or absent; and a fully populated quake event
realizes the full skeleton. -/
theorem formatter_fragment_order :
    (∀ (ctx : Ctx) (quake : JMAQuake),
       List.Sublist ((formatQuakeMessage ctx quake).map blockKind) quakeSkeleton)
    ∧ (∀ (ctx : Ctx) (tsunami : JMATsunami),
       List.Sublist ((formatTsunamiMessage ctx tsunami).map blockKind) tsunamiSkeleton)
    ∧ (∀ (ctx : Ctx) (eew : EEW),
       List.Sublist ((formatEEWMessage ctx eew).map blockKind) eewSkeleton)
    ∧ (∀ (ctx : Ctx) (quake : JMAQuake) (points : List ObservationPoint),
         quake.points = some points → 0 < points.length →
         (formatQuakeMessage ctx quake).map blockKind = quakeSkeleton) := by
  refine ⟨?_, ?_, ?_, ?_⟩
  · intro ctx quake
    rw [formatQuakeMessage, quakeBaseBlocks]
    cases hp : quake.points with
    | none =>
        simp only [List.cons_append, List.nil_append, List.append_nil]
        rw [insertIdx_three]
        simp only [List.map_cons, List.map_nil, blockKind]
        decide
    | some pts =>
        by_cases hlen : 0 < pts.length
        · simp only [hlen, if_true, List.cons_append, List.nil_append]
          rw [insertIdx_three]
          simp only [List.map_cons, List.map_nil, blockKind]
          decide
        · simp only [hlen, if_false, List.cons_append, List.nil_append, List.append_nil]
          rw [insertIdx_three]
          simp only [List.map_cons, List.map_nil, blockKind]
          decide
  · intro ctx tsunami
    rw [formatTsunamiMessage, tsunamiAreaBlocks]
    cases hc : tsunami.cancelled <;>
      [skip; skip] <;>
      cases ha : tsunami.areas with
    | none =>
        simp only [Bool.false_eq_true, if_false, if_true, List.cons_append, List.nil_append,
          List.append_nil, List.map_cons, List.map_nil, blockKind]
        decide
    | some areas =>
        by_cases hlen : 0 < areas.length <;>
          simp only [hlen, Bool.false_eq_true, if_false, if_true, List.cons_append,
            List.nil_append, List.append_nil, List.map_cons, List.map_nil, blockKind] <;>
          decide
  · intro ctx eew
    rw [formatEEWMessage, eewAreaBlocks]
    cases ha : eew.areas with
    | none =>
        dsimp only
        by_cases hinfo : 0 < (eewInfo ctx eew).length <;>
          simp only [hinfo, if_true, if_false, List.cons_append, List.nil_append,
            List.append_nil, List.map_cons, List.map_nil, List.map_append, blockKind] <;>
          decide
    | some areas =>
        dsimp only
        by_cases hcond : 0 < areas.length ∧ ¬eew.cancelled = true
        · rw [if_pos hcond]
          by_cases hinfo : 0 < (eewInfo ctx eew).length <;>
            simp only [hinfo, if_true, if_false, List.cons_append, List.nil_append,
              List.append_nil, List.map_cons, List.map_nil, List.map_append, blockKind] <;>
            decide
        · rw [if_neg hcond]
          by_cases hinfo : 0 < (eewInfo ctx eew).length <;>
            simp only [hinfo, if_true, if_false, List.cons_append, List.nil_append,
              List.append_nil, List.map_cons, List.map_nil, List.map_append, blockKind] <;>
            decide
  · intro ctx quake points hp hlen
    rw [formatQuakeMessage, quakeBaseBlocks, hp]
    simp only [hlen, if_true, List.cons_append, List.nil_append]
    rw [insertIdx_three]
    simp only [List.map_cons, List.map_nil, blockKind]
    rfl

/-- C7 witness: the fully populated quake frame realizes the full quake
skeleton. -/
theorem formatter_fragment_order_witness :
    q1.points = some pts11 ∧ 0 < pts11.length
    ∧ (formatQuakeMessage ctx0 q1).map blockKind = quakeSkeleton :=
  ⟨rfl, by decide, formatter_fragment_order.2.2.2 ctx0 q1 pts11 rfl (by decide)⟩
